import Mathlib

/-!
Shallow embedding of the content-based recommendation and visual-search
subsystem of the bookstore repository
(`books/ai_recommendation.py` and `books/visual_search.py`),
with theorems settling the frozen claims about it.

External effects are made explicit: the Django ORM's catalog enumeration
becomes a list (its enumeration order), the Django cache becomes explicit
optional values, the pickled model file becomes an explicit optional
artifact, and the opaque sklearn objects (TfidfVectorizer + KMeans) become
an abstract fitted predictor function, since queries only ever use them
through the composite `kmeans.predict(vectorizer.transform(...))`.
-/

/-- Embeds the `Book` model (`books/models.py`): the fields read by the
recommendation and visual-search code. `image_features` is a nullable JSON
list of floats, embedded as `Option (List ℚ)`. -/
structure Book where
  id : Nat
  title : String
  author : String
  genre : String
  category : String
  imageFeatures : Option (List ℚ)
deriving Repr, DecidableEq

/-- Embeds the `UserBook` model (`books/models.py`): the fields read by
`find_similar_books_enhanced`. -/
structure UserBook where
  id : Nat
  isAvailable : Bool
  imageFeatures : Option (List ℚ)
deriving Repr, DecidableEq

/-- Embeds `df['features'] = df['category'] + ' ' + df['genre'] + ' ' + df['author']`
(`ai_recommendation.py` line 18): the derived feature string of one book. -/
def featuresOf (b : Book) : String :=
  b.category ++ " " ++ b.genre ++ " " ++ b.author

/-- Embeds the pickled model artifact (`ai_recommendation.py` lines 26-31):
`vectorizer` and `kmeans` are opaque fitted sklearn objects, used by queries
only through the composite `kmeans.predict(vectorizer.transform([s]))[0]`,
embedded as the function `predict`.  `nClusters` and `randomState` record the
constructor arguments of the stored `KMeans` object. -/
structure ModelData where
  nClusters : Nat
  randomState : Nat
  predict : String → Nat
  book_ids : List Nat
  features : List String

/-- Embeds `train_recommendation_model` (`ai_recommendation.py` lines 11-31):
reads the catalog, returns early on an empty catalog (`if not books: return`),
otherwise derives the feature strings, fits KMeans with
`n_clusters = min(10, len(df))` and `random_state = 42`, and assembles the
artifact.  `fit` abstracts the sklearn fitting
(n_clusters → random_state → corpus → fitted predictor).
Returns `none` when nothing was trained (no artifact produced). -/
def train_recommendation_model (fit : Nat → Nat → List String → (String → Nat))
    (books : List Book) : Option ModelData :=
  if books.isEmpty then none
  else
    let features := books.map featuresOf
    some { nClusters := min 10 books.length
           randomState := 42
           predict := fit (min 10 books.length) 42 features
           book_ids := books.map (fun b => b.id)
           features := features }

/-- Embeds the persistence effect of a training run on the model file
(`ai_recommendation.py` lines 33-35): when training returned early (empty
catalog) the file at `MODEL_PATH` is untouched; otherwise `pickle.dump`
overwrites it with the new artifact.  The file state is
`Option (Option ModelData)`: `none` = no file, `some none` = a file that
fails to unpickle, `some (some m)` = a file holding artifact `m`. -/
def train_and_persist (fit : Nat → Nat → List String → (String → Nat))
    (books : List Book) (file : Option (Option ModelData)) :
    Option (Option ModelData) :=
  match train_recommendation_model fit books with
  | none => file
  | some m => some (some m)

/-- Embeds the file-system behaviour of the persistence step
(`ai_recommendation.py` lines 33-35) under CPython file semantics:
`open(MODEL_PATH, 'wb')` truncates the file at the real path in place, then
`pickle.dump` writes the serialized bytes.  The result is the sequence of
file contents observable at `MODEL_PATH` during the step: the old bytes
before the call, the empty (truncated) content after `open`, and the new
bytes after the write completes.  (Chunked writes would only add further
intermediate prefixes; the truncated state is observable regardless.) -/
def persistArtifactStates (oldBytes newBytes : List Nat) : List (List Nat) :=
  [oldBytes, [], newBytes]

/-- Embeds `cluster = kmeans.predict(vectorizer.transform([features[book_index]]))[0]`
with `book_index = book_ids.index(book_id)` (`ai_recommendation.py` lines 73-75). -/
def queryCluster (m : ModelData) (book_id : Nat) : Nat :=
  m.predict (m.features.getD (List.indexOf book_id m.book_ids) "")

/-- Embeds lines 78-81 of `ai_recommendation.py`: predict the cluster of every
stored feature string, keep the ids whose cluster equals the query item's
cluster and which differ from the query id (`cluster_mask`), in `book_ids`
order, truncated to `top_n` (`cluster_books`). -/
def recSelectedIds (m : ModelData) (book_id top_n : Nat) : List Nat :=
  ((m.book_ids.zip (m.features.map m.predict)).filterMap
    (fun p => if p.2 = queryCluster m book_id ∧ p.1 ≠ book_id then some p.1 else none)).take top_n

/-- Embeds `list(Book.objects.filter(id__in=cluster_books))`
(`ai_recommendation.py` line 83): the catalog rows whose id is among the
selected ids, in the catalog's enumeration order (the `Book` model declares
no `Meta.ordering`, so the query returns rows in the database's default
enumeration order, embedded as the order of the `catalog` list). -/
def computeRecs (catalog : List Book) (m : ModelData) (book_id top_n : Nat) : List Book :=
  catalog.filter (fun b => decide (b.id ∈ recSelectedIds m book_id top_n))

/-- Embeds lines 58-93 of `ai_recommendation.py`, given a loaded (or failed)
model file: a corrupt file (`pickle.load` raises) lands in the `except` at
line 89 and yields the default; an id absent from `book_ids` yields the
default (lines 67-71); mismatched `book_ids`/`features` lengths make the
pandas/numpy mask construction at line 80 raise, landing in the same
`except`; otherwise the cluster computation runs. -/
def recsFromModel (catalog : List Book) (mf : Option ModelData) (book_id top_n : Nat) :
    List Book :=
  match mf with
  | none => catalog.take top_n
  | some m =>
    if book_id ∈ m.book_ids then
      if m.book_ids.length = m.features.length then
        computeRecs catalog m book_id top_n
      else catalog.take top_n
    else catalog.take top_n

/-- Embeds the explicit external state of one `get_recommendations` call:
the catalog enumeration, the state of the model file at `MODEL_PATH`,
whether a synchronous training attempt raises (`trainFails`), the abstract
sklearn fitting function, and the cache entry currently stored under this
call's key `book_recommendations_{book_id}` (`none` = cache miss). -/
structure RecEnv where
  catalog : List Book
  modelFile : Option (Option ModelData)
  trainFails : Bool
  fit : Nat → Nat → List String → (String → Nat)
  cacheRec : Option (List Book)

/-- Embeds `get_recommendations` after the cache probe
(`ai_recommendation.py` lines 49-93): if the model file is missing, train
synchronously — a raising training run is caught at line 52 and yields the
default immediately; a training run that wrote no file (empty catalog) makes
the subsequent `open(MODEL_PATH)` raise, landing in the `except` at line 89,
which also yields the default; otherwise the freshly written or existing
file is loaded and the cluster computation runs. -/
def recsAfterCache (env : RecEnv) (book_id top_n : Nat) : List Book :=
  match env.modelFile with
  | none =>
    if env.trainFails then env.catalog.take top_n
    else
      match train_recommendation_model env.fit env.catalog with
      | none => env.catalog.take top_n
      | some m => recsFromModel env.catalog (some m) book_id top_n
  | some mf => recsFromModel env.catalog mf book_id top_n

/-- Embeds `get_recommendations` (`ai_recommendation.py` lines 37-93)
including the cache probe at lines 44-47: `if cached_recommendations:` is a
Python truthiness test, so both a cache miss (`None`) and a cached empty
list fall through to recomputation; only a non-empty cached list is served. -/
def get_recommendations (env : RecEnv) (book_id : Nat) (top_n : Nat) : List Book :=
  match env.cacheRec with
  | some cached => if cached.isEmpty then recsAfterCache env book_id top_n else cached
  | none => recsAfterCache env book_id top_n

/-- A visual feature vector (`image_features` / a VGG16 embedding flattened
to a list of floats), embedded over ℚ. -/
abbrev Feature := List ℚ

/-- An entry of the visual index: the referenced catalog row, which is
either a `Book` or a `UserBook` (`visual_search.py` lines 89 and 97). -/
inductive BookRef where
  | book (b : Book)
  | userBook (u : UserBook)
deriving Repr, DecidableEq

/-- One triple of the cached visual index: `(book, features, book_type)`
(`visual_search.py` lines 89 and 97). -/
abbrev IndexEntry := BookRef × Feature × String

/-- One retained candidate: `(book, similarity, book_type)`
(`visual_search.py` line 111). -/
abbrev RankedEntry := BookRef × ℚ × String

/-- Embeds the index build (`visual_search.py` lines 76-100): every `Book`
whose `image_features` is non-null, tagged `'book'`, followed by every
available `UserBook` whose `image_features` is non-null, tagged
`'user_book'`, in catalog enumeration order. -/
def buildIndex (books : List Book) (userBooks : List UserBook) : List IndexEntry :=
  books.filterMap (fun b => b.imageFeatures.map (fun f => (BookRef.book b, f, "book")))
  ++ userBooks.filterMap (fun u =>
      if u.isAvailable then u.imageFeatures.map (fun f => (BookRef.userBook u, f, "user_book"))
      else none)

/-- Embeds the similarity filter loop (`visual_search.py` lines 106-114):
for each index entry, compute `cosine_similarity(uploaded, features)[0][0]`
— embedded as the abstract function `sim`, with `none` standing for a
per-entry exception, which is caught and skips only that entry — and keep
`(book, similarity, book_type)` exactly when `similarity > 0.5`. -/
def retainedCandidates (sim : Feature → Feature → Option ℚ) (q : Feature)
    (entries : List IndexEntry) : List RankedEntry :=
  entries.filterMap (fun e =>
    match sim q e.2.1 with
    | none => none
    | some s => if 1/2 < s then some (e.1, s, e.2.2) else none)

/-- One insertion step of Python's stable sort with `reverse=True`: the new
element is placed after every already-placed element whose key is ≥ its own
and before the first strictly smaller one, so equal keys keep their original
relative order. -/
def insertDesc (key : α → ℚ) (x : α) : List α → List α
  | [] => [x]
  | y :: ys => if key y < key x then x :: y :: ys else y :: insertDesc key x ys

/-- Embeds `similarities.sort(key=lambda x: x[1], reverse=True)`
(`visual_search.py` line 117): Python's list sort is stable, and
`reverse=True` sorts descending while still keeping equal keys in original
order. -/
def pySortDesc (key : α → ℚ) (l : List α) : List α :=
  l.foldl (fun acc x => insertDesc key x acc) []

/-- Embeds lines 106-121 of `visual_search.py`: filter by the strict 0.5
threshold, sort by similarity descending (stable), return the first
`top_n`. -/
def rankSimilar (sim : Feature → Feature → Option ℚ) (q : Feature)
    (entries : List IndexEntry) (top_n : Nat) : List RankedEntry :=
  (pySortDesc (fun r => r.2.1) (retainedCandidates sim q entries)).take top_n

/-- Embeds the explicit external state of one `find_similar_books_enhanced`
call: the two catalog enumerations, the cache entry under key
`book_features` (`none` = miss, rebuilt from the catalogs), and the abstract
`cosine_similarity` computation (`none` = the per-entry comparison raises). -/
structure VisEnv where
  books : List Book
  userBooks : List UserBook
  featureCache : Option (List IndexEntry)
  sim : Feature → Feature → Option ℚ

/-- Embeds lines 71-103 of `visual_search.py`: the cached index if the
cache entry is present (`if cached_features is None:` — an identity check,
not a truthiness check), otherwise the index rebuilt from the catalogs. -/
def visualIndexOf (env : VisEnv) : List IndexEntry :=
  match env.featureCache with
  | some cf => cf
  | none => buildIndex env.books env.userBooks

/-- The uploaded image argument of `find_similar_books_enhanced`: a
file-like object (line 59), whose load/extraction either yields features or
raises — an exception there propagates to the function's outer handler — or
a path (line 63), where `extract_features_from_path` catches internally and
yields `None` on failure. -/
inductive Upload where
  | fileLike (r : Except Unit Feature)
  | path (r : Option Feature)

/-- The result of `find_similar_books_enhanced`: on the normal path a list
of `(book, similarity, book_type)` triples (line 121, also line 125's `[]`),
but on extraction failure a plain list of catalog `Book` rows
(line 67's `Book.objects.all()[:top_n]`). -/
inductive VisResult where
  | ranked (rs : List RankedEntry)
  | defaultBooks (bs : List Book)
deriving Repr, DecidableEq

/-- Embeds lines 57-121 of `visual_search.py` once the uploaded features
are settled: `None` features yield `Book.objects.all()[:top_n]` (line 67);
otherwise the index is obtained (cache or rebuild) and the filter/sort/take
pipeline runs. -/
def find_similar_core (env : VisEnv) (uploadedFeatures : Option Feature) (top_n : Nat) :
    VisResult :=
  match uploadedFeatures with
  | none => .defaultBooks (env.books.take top_n)
  | some q => .ranked (rankSimilar env.sim q (visualIndexOf env) top_n)

/-- Embeds `find_similar_books_enhanced` (`visual_search.py` lines 51-125):
for a file-like upload whose load/extraction raises, the outer `except` at
line 123 returns the empty list `[]`; otherwise the core pipeline runs on
the extracted features (or their absence, for a failed path extraction). -/
def find_similar_books_enhanced (env : VisEnv) (uploaded : Upload) (top_n : Nat) :
    VisResult :=
  match uploaded with
  | .fileLike (.error _) => .ranked []
  | .fileLike (.ok q) => find_similar_core env (some q) top_n
  | .path r => find_similar_core env r top_n

/-- Descending sortedness by a ℚ-valued key. -/
def SortedDesc (key : α → ℚ) (l : List α) : Prop :=
  l.Pairwise (fun a b => key b ≤ key a)

theorem mem_insertDesc (key : α → ℚ) (x a : α) :
    ∀ l : List α, a ∈ insertDesc key x l ↔ a = x ∨ a ∈ l
  | [] => by simp [insertDesc]
  | y :: ys => by
    simp only [insertDesc]
    by_cases h : key y < key x
    · simp [h]
    · simp only [if_neg h, List.mem_cons, mem_insertDesc key x a ys]
      tauto

theorem sortedDesc_insertDesc {key : α → ℚ} {x : α} :
    ∀ {l : List α}, SortedDesc key l → SortedDesc key (insertDesc key x l)
  | [], _ => by simp [insertDesc, SortedDesc]
  | y :: ys, h => by
    simp only [SortedDesc, List.pairwise_cons] at h
    obtain ⟨hy, hys⟩ := h
    by_cases hlt : key y < key x
    · simp only [SortedDesc, insertDesc, if_pos hlt, List.pairwise_cons]
      refine ⟨?_, ?_, hys⟩
      · intro z hz
        rcases List.mem_cons.mp hz with rfl | hz
        · exact le_of_lt hlt
        · exact le_trans (hy z hz) (le_of_lt hlt)
      · exact hy
    · simp only [SortedDesc, insertDesc, if_neg hlt, List.pairwise_cons]
      constructor
      · intro z hz
        rcases (mem_insertDesc key x z ys).mp hz with rfl | hz
        · exact le_of_not_lt hlt
        · exact hy z hz
      · exact sortedDesc_insertDesc hys

theorem sortedDesc_foldl_insertDesc {key : α → ℚ} :
    ∀ (l : List α) (acc : List α), SortedDesc key acc →
      SortedDesc key (l.foldl (fun acc x => insertDesc key x acc) acc)
  | [], acc, h => h
  | x :: xs, acc, h =>
    sortedDesc_foldl_insertDesc xs (insertDesc key x acc) (sortedDesc_insertDesc h)

/-- The embedded Python sort always yields a list sorted descending by key. -/
theorem sortedDesc_pySortDesc (key : α → ℚ) (l : List α) :
    SortedDesc key (pySortDesc key l) :=
  sortedDesc_foldl_insertDesc l [] (List.Pairwise.nil)

theorem filter_keyclass_of_head_lt {key : α → ℚ} {c : ℚ} :
    ∀ {l : List α}, SortedDesc key l → (∀ a ∈ l, key a < c) →
      l.filter (fun a => decide (key a = c)) = [] := by
  intro l _ hlt
  rw [List.filter_eq_nil_iff]
  intro a ha
  simp only [decide_eq_true_eq]
  exact ne_of_lt (hlt a ha)

theorem filter_keyclass_insertDesc {key : α → ℚ} {x : α} (c : ℚ) :
    ∀ {l : List α}, SortedDesc key l →
      (insertDesc key x l).filter (fun a => decide (key a = c)) =
        if key x = c then l.filter (fun a => decide (key a = c)) ++ [x]
        else l.filter (fun a => decide (key a = c))
  | [], _ => by
    by_cases hx : key x = c <;> simp [insertDesc, hx]
  | y :: ys, h => by
    have hy := (List.pairwise_cons.mp h).1
    have hys := (List.pairwise_cons.mp h).2
    by_cases hlt : key y < key x
    · simp only [insertDesc, if_pos hlt]
      by_cases hx : key x = c
      · have hnil : (y :: ys).filter (fun a => decide (key a = c)) = [] := by
          refine filter_keyclass_of_head_lt h ?_
          intro a ha
          rcases List.mem_cons.mp ha with rfl | ha
          · exact hx ▸ hlt
          · exact lt_of_le_of_lt (hy a ha) (hx ▸ hlt)
        simp [List.filter_cons, hx, hnil]
      · simp [List.filter_cons, hx]
    · simp only [insertDesc, if_neg hlt]
      have ih : (insertDesc key x ys).filter (fun a => decide (key a = c)) =
          if key x = c then ys.filter (fun a => decide (key a = c)) ++ [x]
          else ys.filter (fun a => decide (key a = c)) :=
        filter_keyclass_insertDesc c hys
      by_cases hyc : key y = c
      · by_cases hx : key x = c <;>
          simp [List.filter_cons, hyc, hx, ih]
      · by_cases hx : key x = c <;>
          simp [List.filter_cons, hyc, hx, ih]

theorem filter_keyclass_foldl {key : α → ℚ} (c : ℚ) :
    ∀ (l acc : List α), SortedDesc key acc →
      (l.foldl (fun acc x => insertDesc key x acc) acc).filter (fun a => decide (key a = c)) =
        acc.filter (fun a => decide (key a = c)) ++ l.filter (fun a => decide (key a = c))
  | [], acc, _ => by simp
  | x :: xs, acc, h => by
    have ih : (xs.foldl (fun acc x => insertDesc key x acc)
          (insertDesc key x acc)).filter (fun a => decide (key a = c)) =
        (insertDesc key x acc).filter (fun a => decide (key a = c))
          ++ xs.filter (fun a => decide (key a = c)) :=
      filter_keyclass_foldl c xs (insertDesc key x acc) (sortedDesc_insertDesc h)
    simp only [List.foldl_cons] at ih ⊢
    rw [ih, filter_keyclass_insertDesc c h]
    by_cases hx : key x = c <;> simp [List.filter_cons, hx]

/-- Stability of the embedded Python sort: for every key value `c`, the
elements with key `c` appear in the sorted output in exactly their original
relative order. -/
theorem filter_keyclass_pySortDesc (key : α → ℚ) (c : ℚ) (l : List α) :
    (pySortDesc key l).filter (fun a => decide (key a = c)) =
      l.filter (fun a => decide (key a = c)) := by
  have h : (l.foldl (fun acc x => insertDesc key x acc) ([] : List α)).filter
        (fun a => decide (key a = c)) =
      ([] : List α).filter (fun a => decide (key a = c))
        ++ l.filter (fun a => decide (key a = c)) :=
    filter_keyclass_foldl c l [] List.Pairwise.nil
  simpa [pySortDesc] using h

theorem filterMap_zip_fst_sublist {β : Type _} (P : Nat × β → Prop) [DecidablePred P] :
    ∀ (l : List Nat) (l2 : List β),
      ((l.zip l2).filterMap (fun p => if P p then some p.1 else none)).Sublist l
  | [], _ => by simp
  | _ :: _, [] => by simp
  | a :: l, b :: l2 => by
    simp only [List.zip_cons_cons, List.filterMap_cons]
    by_cases h : P (a, b)
    · simp only [if_pos h]
      exact List.Sublist.cons₂ a (filterMap_zip_fst_sublist P l l2)
    · simp only [if_neg h]
      exact List.Sublist.cons a (filterMap_zip_fst_sublist P l l2)

/-- The ids selected by the cluster mask form a subsequence of `book_ids`:
they occur in `book_ids` (training) order. -/
theorem recSelectedIds_sublist (m : ModelData) (book_id top_n : Nat) :
    (recSelectedIds m book_id top_n).Sublist m.book_ids :=
  List.Sublist.trans (List.take_sublist _ _)
    (filterMap_zip_fst_sublist
      (fun p => p.2 = queryCluster m book_id ∧ p.1 ≠ book_id) _ _)

theorem sublist_of_sublist_cons_of_not_mem {γ : Type _} {a : γ} {S l : List γ}
    (h : S.Sublist (a :: l)) (ha : a ∉ S) : S.Sublist l := by
  cases h with
  | cons _ h2 => exact h2
  | cons₂ _ h2 => exact absurd (List.mem_cons_self a _) ha

theorem sublist_cons_decomp {γ : Type _} {a : γ} {S l : List γ}
    (h : S.Sublist (a :: l)) (hmem : a ∈ S) (hal : a ∉ l) :
    ∃ S1, S = a :: S1 ∧ S1.Sublist l := by
  cases h with
  | cons _ h2 => exact absurd (h2.subset hmem) hal
  | cons₂ _ h2 => exact ⟨_, rfl, h2⟩

/-- Filtering a catalog with distinct ids by membership of the ids in a
subsequence `S` of the catalog's id list returns exactly the items with
those ids, in an order that coincides with the order of `S`. -/
theorem map_id_filter_mem_sublist :
    ∀ (catalog : List Book) (S : List Nat),
      S.Sublist (catalog.map (fun b => b.id)) →
      (catalog.map (fun b => b.id)).Nodup →
      (catalog.filter (fun b => decide (b.id ∈ S))).map (fun b => b.id) = S
  | [], S => by
    intro h _
    rw [List.sublist_nil.mp h]
    simp
  | b :: rest, S => by
    intro h hnd
    simp only [List.map_cons, List.nodup_cons] at h hnd
    obtain ⟨hbid, hndr⟩ := hnd
    by_cases hmem : b.id ∈ S
    · obtain ⟨S1, rfl, h2⟩ := sublist_cons_decomp h hmem hbid
      have hcongr : rest.filter (fun x => decide (x.id ∈ b.id :: S1)) =
          rest.filter (fun x => decide (x.id ∈ S1)) := by
        refine List.filter_congr ?_
        intro x hx
        have hxid : x.id ≠ b.id := by
          intro hxe
          exact hbid (hxe ▸ List.mem_map_of_mem (fun b => b.id) hx)
        simp [List.mem_cons, hxid]
      rw [List.filter_cons_of_pos (by simp), List.map_cons, hcongr,
        map_id_filter_mem_sublist rest S1 h2 hndr]
    · have h2 : S.Sublist (rest.map (fun b => b.id)) :=
        sublist_of_sublist_cons_of_not_mem h hmem
      rw [List.filter_cons_of_neg (by simp [hmem])]
      exact map_id_filter_mem_sublist rest S h2 hndr

/-- Inverting a successful training run: the artifact's fields in terms of
the training catalog. -/
theorem train_some_inv {fit : Nat → Nat → List String → (String → Nat)}
    {books : List Book} {m : ModelData}
    (ht : train_recommendation_model fit books = some m) :
    m.book_ids = books.map (fun b => b.id)
    ∧ m.features = books.map featuresOf
    ∧ m.nClusters = min 10 books.length
    ∧ m.randomState = 42 := by
  by_cases h : books.isEmpty
  · simp [train_recommendation_model, h] at ht
  · simp only [train_recommendation_model, h, Bool.false_eq_true, if_false,
      Option.some.injEq] at ht
    subst ht
    exact ⟨rfl, rfl, rfl, rfl⟩

/-- The success path of `get_recommendations`: cache miss, artifact present
and loadable, query id present, parallel arrays of equal length. -/
theorem get_recommendations_success (env : RecEnv) (m : ModelData) (book_id top_n : Nat)
    (hc : env.cacheRec = none) (hf : env.modelFile = some (some m))
    (hmem : book_id ∈ m.book_ids) (hlen : m.book_ids.length = m.features.length) :
    get_recommendations env book_id top_n = computeRecs env.catalog m book_id top_n := by
  simp [get_recommendations, hc, recsAfterCache, hf, recsFromModel, hmem, hlen]

/-- A concrete abstract fitting function for witnesses: every feature string
is assigned to cluster 0. -/
def fitZero : Nat → Nat → List String → (String → Nat) := fun _ _ _ => fun _ => 0

/-- A tiny catalog item used in concrete instantiations of C4 and C8. -/
def bkC4 : Book := ⟨1, "Dune", "Herbert", "SciFi", "Fiction", none⟩

/-- C4: for a catalog of size `n > 0`, `train_recommendation_model`
requests exactly `min(10, n)` clusters (never more clusters than items)
with the fixed random seed 42; for `n = 0` it returns without producing an
artifact, and the persisted model file is left untouched. -/
theorem C4_cluster_count_bound :
    (∀ (fit : Nat → Nat → List String → (String → Nat)) (books : List Book)
       (file : Option (Option ModelData)),
       books.length = 0 →
       train_recommendation_model fit books = none
         ∧ train_and_persist fit books file = file)
  ∧ (∀ (fit : Nat → Nat → List String → (String → Nat)) (books : List Book)
       (file : Option (Option ModelData)),
       0 < books.length →
       ∃ m, train_recommendation_model fit books = some m
         ∧ m.nClusters = min 10 books.length
         ∧ m.nClusters ≤ books.length
         ∧ m.randomState = 42
         ∧ train_and_persist fit books file = some (some m)) := by
  constructor
  · intro fit books file h
    have he : books.isEmpty = true := by
      cases books
      · rfl
      · simp at h
    have ht : train_recommendation_model fit books = none := by
      simp [train_recommendation_model, he]
    exact ⟨ht, by simp [train_and_persist, ht]⟩
  · intro fit books file h
    have he : books.isEmpty = false := by
      cases books
      · simp at h
      · rfl
    have ht : train_recommendation_model fit books =
        some { nClusters := min 10 books.length
               randomState := 42
               predict := fit (min 10 books.length) 42 (books.map featuresOf)
               book_ids := books.map (fun b => b.id)
               features := books.map featuresOf } := by
      simp [train_recommendation_model, he]
    exact ⟨_, ht, rfl, Nat.min_le_right 10 books.length, rfl,
      by simp [train_and_persist, ht]⟩

/-- Witness for C4 at concrete inputs: the empty catalog is a persisted
no-op, and a one-item catalog requests `min(10, 1) = 1` cluster with seed
42 and publishes the artifact. -/
theorem C4_witness :
    (train_recommendation_model fitZero [] = none
      ∧ train_and_persist fitZero [] (some none) = some none)
    ∧ (∃ m, train_recommendation_model fitZero [bkC4] = some m
        ∧ m.nClusters = min 10 [bkC4].length
        ∧ m.nClusters ≤ [bkC4].length
        ∧ m.randomState = 42
        ∧ train_and_persist fitZero [bkC4] (some none) = some (some m)) :=
  ⟨C4_cluster_count_bound.1 fitZero [] (some none) rfl,
   C4_cluster_count_bound.2 fitZero [bkC4] (some none) (by decide)⟩

/-- C8: after every successful training run, `book_ids` and `features` are
parallel sequences of equal length (the length of the training catalog),
and at every index `i` they hold the id and the derived feature string
`category + ' ' + genre + ' ' + author` of the same catalog item. -/
theorem C8_parallel_arrays (fit : Nat → Nat → List String → (String → Nat))
    (books : List Book) (m : ModelData)
    (ht : train_recommendation_model fit books = some m) :
    m.book_ids.length = m.features.length
    ∧ m.book_ids.length = books.length
    ∧ ∀ (i : Nat) (h1 : i < m.book_ids.length) (h2 : i < m.features.length)
        (h3 : i < books.length),
        m.book_ids.get ⟨i, h1⟩ = (books.get ⟨i, h3⟩).id
        ∧ m.features.get ⟨i, h2⟩ = featuresOf (books.get ⟨i, h3⟩) := by
  obtain ⟨hi, hfeat, -, -⟩ := train_some_inv ht
  simp only [hi, hfeat, List.length_map]
  refine ⟨trivial, trivial, ?_⟩
  intro i h1 h2 h3
  constructor
  · simp [List.get_eq_getElem, hi]
  · simp [List.get_eq_getElem, hfeat]

/-- Witness for C8 at a concrete one-item catalog. -/
theorem C8_witness :
    (train_recommendation_model fitZero [bkC4]).elim False
      (fun m => m.book_ids.length = m.features.length ∧ m.book_ids.length = 1) := by
  have h := C8_parallel_arrays fitZero [bkC4]
    { nClusters := 1, randomState := 42
      predict := fitZero 1 42 ["Fiction SciFi Herbert"]
      book_ids := [1], features := ["Fiction SciFi Herbert"] } rfl
  exact ⟨h.1, h.2.1⟩

/-- Sample catalog items with visual feature vectors, used in concrete
instantiations. -/
def bkA : Book := ⟨1, "A", "a", "g1", "c1", some [9/10]⟩

def bkB : Book := ⟨2, "B", "b", "g1", "c1", some [7/10]⟩

def bkC : Book := ⟨3, "C", "c", "g2", "c2", some [7/10]⟩

def bkD : Book := ⟨4, "D", "d", "g2", "c2", some [6/10]⟩

def bkE : Book := ⟨5, "E", "e", "g3", "c3", some [1/2]⟩

def bkF : Book := ⟨6, "F", "f", "g3", "c3", some [50001/100000]⟩

/-- A concrete similarity computation for witnesses: reads the stored
vector's head as the similarity score. -/
def simHead : Feature → Feature → Option ℚ := fun _ f => some (f.headD 0)

def envC1vis : VisEnv := ⟨[bkA], [], none, simHead⟩

/-- C1 counterexample: with a non-empty catalog, a total failure of the
visual path (a file-like upload whose image load raises, caught only by the
outer handler at `visual_search.py` line 123) returns the empty list `[]`,
not the first `topN` catalog items demanded by the claim's fixed default. -/
theorem C1_counterexample :
    find_similar_books_enhanced envC1vis (.fileLike (.error ())) 5 = .ranked []
    ∧ VisResult.ranked [] ≠ VisResult.defaultBooks (envC1vis.books.take 5) :=
  ⟨rfl, by decide⟩

/-- C1 (amended): both query operations are total functions of their
explicit environment; `get_recommendations` returns the first `topN`
catalog items on every internal failure (failed training, corrupt artifact,
unknown id, empty-catalog no-op training), and `find_similar_books_enhanced`
returns the first `topN` catalog items on extraction failure — but on total
failure of the outer visual path it returns the empty list, not that
default. -/
theorem C1_total_default_policy :
    (∀ (env : RecEnv) (book_id top_n : Nat),
       env.cacheRec = none → env.modelFile = none → env.trainFails = true →
       get_recommendations env book_id top_n = env.catalog.take top_n)
  ∧ (∀ (env : RecEnv) (book_id top_n : Nat),
       env.cacheRec = none → env.modelFile = some none →
       get_recommendations env book_id top_n = env.catalog.take top_n)
  ∧ (∀ (env : RecEnv) (m : ModelData) (book_id top_n : Nat),
       env.cacheRec = none → env.modelFile = some (some m) → book_id ∉ m.book_ids →
       get_recommendations env book_id top_n = env.catalog.take top_n)
  ∧ (∀ (env : RecEnv) (book_id top_n : Nat),
       env.cacheRec = none → env.modelFile = none → env.trainFails = false →
       env.catalog = [] →
       get_recommendations env book_id top_n = env.catalog.take top_n)
  ∧ (∀ (env : VisEnv) (top_n : Nat),
       find_similar_books_enhanced env (.path none) top_n
         = .defaultBooks (env.books.take top_n))
  ∧ (∀ (env : VisEnv) (e : Unit) (top_n : Nat),
       find_similar_books_enhanced env (.fileLike (.error e)) top_n = .ranked []) := by
  refine ⟨?_, ?_, ?_, ?_, ?_, ?_⟩
  · intro env book_id top_n hc hf htr
    simp [get_recommendations, hc, recsAfterCache, hf, htr]
  · intro env book_id top_n hc hf
    simp [get_recommendations, hc, recsAfterCache, hf, recsFromModel]
  · intro env m book_id top_n hc hf hni
    simp [get_recommendations, hc, recsAfterCache, hf, recsFromModel, hni]
  · intro env book_id top_n hc hf htr hcat
    simp [get_recommendations, hc, recsAfterCache, hf, htr, hcat,
      train_recommendation_model]
  · intro env top_n
    rfl
  · intro env e top_n
    rfl

def mCW : ModelData := ⟨1, 42, fun _ => 0, [9], ["x"]⟩

def envCW1 : RecEnv := ⟨[bkA], none, true, fitZero, none⟩

def envCW2 : RecEnv := ⟨[bkA], some none, false, fitZero, none⟩

def envCW3 : RecEnv := ⟨[bkA], some (some mCW), false, fitZero, none⟩

def envCW4 : RecEnv := ⟨[], none, false, fitZero, none⟩

/-- Witness for the amended C1 at concrete environments. -/
theorem C1_witness :
    get_recommendations envCW1 1 3 = envCW1.catalog.take 3
    ∧ get_recommendations envCW2 1 3 = envCW2.catalog.take 3
    ∧ get_recommendations envCW3 1 3 = envCW3.catalog.take 3
    ∧ get_recommendations envCW4 1 3 = envCW4.catalog.take 3
    ∧ find_similar_books_enhanced envC1vis (.path none) 3
        = .defaultBooks (envC1vis.books.take 3)
    ∧ find_similar_books_enhanced envC1vis (.fileLike (.error ())) 3 = .ranked [] :=
  ⟨C1_total_default_policy.1 envCW1 1 3 rfl rfl rfl,
   C1_total_default_policy.2.1 envCW2 1 3 rfl rfl,
   C1_total_default_policy.2.2.1 envCW3 mCW 1 3 rfl rfl (by decide),
   C1_total_default_policy.2.2.2.1 envCW4 1 3 rfl rfl rfl rfl,
   C1_total_default_policy.2.2.2.2.1 envC1vis 3,
   C1_total_default_policy.2.2.2.2.2 envC1vis () 3⟩

/-- C3 counterexample: during a training run over a catalog whose previous
artifact serialized to `[1]` and whose new artifact serializes to `[2]`, a
concurrent reader of `MODEL_PATH` can observe the truncated content `[]`,
which is neither the old nor the new artifact — the publish step is not
atomic. -/
theorem C3_counterexample :
    ([] : List Nat) ∈ persistArtifactStates [1] [2]
    ∧ ([] : List Nat) ≠ [1] ∧ ([] : List Nat) ≠ [2] := by
  refine ⟨?_, by decide, by decide⟩
  simp [persistArtifactStates]

/-- C3 (amended): the training run writes the artifact in place —
`open(MODEL_PATH, 'wb')` truncates the file at its final path before
`pickle.dump` writes the new bytes — so the truncated intermediate state is
always observable to a concurrent reader; a reader that observes a state
that fails to unpickle degrades to the default result rather than crashing. -/
theorem C3_inplace_write_reader_fallback :
    (∀ oldBytes newBytes : List Nat, [] ∈ persistArtifactStates oldBytes newBytes)
  ∧ (∀ (env : RecEnv) (book_id top_n : Nat),
       env.cacheRec = none → env.modelFile = some none →
       get_recommendations env book_id top_n = env.catalog.take top_n) := by
  constructor
  · intro oldBytes newBytes
    simp [persistArtifactStates]
  · intro env book_id top_n hc hf
    simp [get_recommendations, hc, recsAfterCache, hf, recsFromModel]

def envC3w : RecEnv := ⟨[bkA, bkB], some none, false, fitZero, none⟩

/-- Witness for the amended C3 at concrete inputs. -/
theorem C3_witness :
    ([] : List Nat) ∈ persistArtifactStates [3] [4]
    ∧ get_recommendations envC3w 1 1 = envC3w.catalog.take 1 :=
  ⟨C3_inplace_write_reader_fallback.1 [3] [4],
   C3_inplace_write_reader_fallback.2 envC3w 1 1 rfl rfl⟩

def envC5 : VisEnv := ⟨[bkE, bkF], [], none, simHead⟩

/-- C5: an index entry whose computed similarity is `s` is kept as a
candidate iff `s > 0.5` strictly: every retained candidate has similarity
strictly above 1/2, every entry whose similarity exceeds 1/2 is retained,
and concretely a candidate at exactly 1/2 is excluded from the result while
one at 0.50001 is included. -/
theorem C5_similarity_threshold_strict :
    (∀ (sim : Feature → Feature → Option ℚ) (q : Feature) (entries : List IndexEntry),
       ∀ r ∈ retainedCandidates sim q entries, 1/2 < r.2.1)
  ∧ (∀ (sim : Feature → Feature → Option ℚ) (q : Feature) (entries : List IndexEntry)
       (e : IndexEntry) (s : ℚ),
       e ∈ entries → sim q e.2.1 = some s → 1/2 < s →
       (e.1, s, e.2.2) ∈ retainedCandidates sim q entries)
  ∧ find_similar_books_enhanced envC5 (.path (some [1])) 5
      = .ranked [(.book bkF, 50001/100000, "book")] := by
  refine ⟨?_, ?_, by
    norm_num [find_similar_books_enhanced, find_similar_core, visualIndexOf,
      rankSimilar, retainedCandidates, buildIndex, pySortDesc, insertDesc,
      simHead, envC5, bkE, bkF, List.filterMap_cons]⟩
  · intro sim q entries r hr
    simp only [retainedCandidates, List.mem_filterMap] at hr
    obtain ⟨e, -, hfe⟩ := hr
    rcases hsim : sim q e.2.1 with - | s
    · simp [hsim] at hfe
    · simp only [hsim] at hfe
      by_cases hlt : 1/2 < s
      · rw [if_pos hlt] at hfe
        obtain rfl := Option.some.inj hfe
        exact hlt
      · rw [if_neg hlt] at hfe
        simp at hfe
  · intro sim q entries e s he hsim hlt
    simp only [retainedCandidates, List.mem_filterMap]
    refine ⟨e, he, ?_⟩
    simp only [hsim]
    rw [if_pos hlt]

/-- Witness for C5 at a concrete two-entry index: the 0.50001 entry is a
retained candidate with similarity strictly above 1/2. -/
theorem C5_witness :
    (1 : ℚ)/2 < ((BookRef.book bkF, (50001 : ℚ)/100000, "book") : RankedEntry).2.1
    ∧ ((BookRef.book bkF, (50001 : ℚ)/100000, "book") : RankedEntry)
        ∈ retainedCandidates simHead [1] (buildIndex [bkE, bkF] []) :=
  ⟨C5_similarity_threshold_strict.1 simHead [1] (buildIndex [bkE, bkF] []) _
     (by norm_num [retainedCandidates, buildIndex, simHead, bkE, bkF, List.filterMap_cons]),
   C5_similarity_threshold_strict.2.1 simHead [1] (buildIndex [bkE, bkF] [])
     (BookRef.book bkF, [50001/100000], "book") (50001/100000)
     (by norm_num [buildIndex, bkE, bkF, List.filterMap_cons])
     (by norm_num [simHead]) (by norm_num)⟩

def envC6 : VisEnv := ⟨[bkA, bkB, bkC, bkD], [], none, simHead⟩

/-- C6: the retained candidates are sorted by similarity in descending
order; equal similarities keep their index build order (the sort's output
restricted to any similarity value equals the input so restricted); and for
candidate similarities [0.9, 0.7, 0.7, 0.6] with topN = 3 the result keeps
the two 0.7 ties in build order and drops the 0.6 entry. -/
theorem C6_stable_descending_ranking :
    (∀ (l : List RankedEntry), SortedDesc (fun r => r.2.1) (pySortDesc (fun r => r.2.1) l))
  ∧ (∀ (l : List RankedEntry) (c : ℚ),
       (pySortDesc (fun r => r.2.1) l).filter (fun r => decide (r.2.1 = c))
         = l.filter (fun r => decide (r.2.1 = c)))
  ∧ find_similar_books_enhanced envC6 (.path (some [1])) 3
      = .ranked [(.book bkA, 9/10, "book"), (.book bkB, 7/10, "book"),
                 (.book bkC, 7/10, "book")] := by
  refine ⟨?_, ?_, by
    norm_num [find_similar_books_enhanced, find_similar_core, visualIndexOf,
      rankSimilar, retainedCandidates, buildIndex, pySortDesc, insertDesc,
      simHead, envC6, bkA, bkB, bkC, bkD, List.filterMap_cons]⟩
  · intro l
    exact sortedDesc_pySortDesc (fun r => r.2.1) l
  · intro l c
    exact filter_keyclass_pySortDesc (fun r => r.2.1) c l

def envC10a : RecEnv := ⟨[bkA], some none, false, fitZero, some []⟩

def envC10b : RecEnv := ⟨[bkA], some none, false, fitZero, some [bkB]⟩

/-- C10: a cached empty list under the recommendation key is treated as a
cache miss — the Python guard `if cached_recommendations:` is a truthiness
test — so the result is recomputed; only a non-empty cached value is ever
served. -/
theorem C10_empty_cached_value_is_miss :
    (∀ (env : RecEnv) (book_id top_n : Nat),
       env.cacheRec = some [] →
       get_recommendations env book_id top_n = recsAfterCache env book_id top_n)
  ∧ (∀ (env : RecEnv) (book_id top_n : Nat) (v : List Book),
       env.cacheRec = some v → v ≠ [] →
       get_recommendations env book_id top_n = v) := by
  constructor
  · intro env book_id top_n hc
    simp [get_recommendations, hc]
  · intro env book_id top_n v hc hv
    simp [get_recommendations, hc, hv]

/-- Witness for C10 at concrete environments: a cached `[]` is recomputed,
a cached non-empty list is served as-is. -/
theorem C10_witness :
    get_recommendations envC10a 1 1 = recsAfterCache envC10a 1 1
    ∧ get_recommendations envC10b 1 1 = [bkB] :=
  ⟨C10_empty_cached_value_is_miss.1 envC10a 1 1 rfl,
   C10_empty_cached_value_is_miss.2 envC10b 1 1 [bkB] rfl (by decide)⟩

/-- C9 (amended): the retrieval cache is advisory only when the cache state
is consistent with the current query: if the recommendation entry is
absent, empty, or holds exactly what the current query's recomputation
would produce (as after a prior call with the same `book_id` *and* the same
`top_n` under the same catalog/artifact state), the cached run returns the
same result sequence as the cache-disabled (always-miss) run; the visual
path's index cache is advisory whenever it is absent or holds the index
built from the current catalogs, since the result is always recomputed from
the index.  Unconditional advisoriness fails because the cache key
`book_recommendations_{book_id}` omits `top_n`. -/
theorem C9_cache_advisory :
    (∀ (env : RecEnv) (book_id top_n : Nat),
       env.cacheRec = none ∨ env.cacheRec = some []
         ∨ env.cacheRec = some (recsAfterCache env book_id top_n) →
       get_recommendations env book_id top_n = recsAfterCache env book_id top_n)
  ∧ (∀ (env : VisEnv) (uploaded : Upload) (top_n : Nat),
       env.featureCache = none
         ∨ env.featureCache = some (buildIndex env.books env.userBooks) →
       find_similar_books_enhanced env uploaded top_n
         = find_similar_books_enhanced
             { books := env.books, userBooks := env.userBooks,
               featureCache := none, sim := env.sim } uploaded top_n) := by
  constructor
  · intro env book_id top_n h
    rcases h with h | h | h
    · simp [get_recommendations, h]
    · simp [get_recommendations, h]
    · simp [get_recommendations, h, ite_self]
  · intro env uploaded top_n h
    have hv : visualIndexOf env
        = visualIndexOf { books := env.books, userBooks := env.userBooks,
                          featureCache := none, sim := env.sim } := by
      rcases h with h | h <;> simp [visualIndexOf, h]
    cases uploaded with
    | fileLike r =>
      cases r with
      | error e => rfl
      | ok q => simp [find_similar_books_enhanced, find_similar_core, hv]
    | path r =>
      cases r with
      | none => rfl
      | some q => simp [find_similar_books_enhanced, find_similar_core, hv]

def envC9r : RecEnv := ⟨[bkA, bkB], some none, false, fitZero,
  some (recsAfterCache ⟨[bkA, bkB], some none, false, fitZero, none⟩ 1 1)⟩

def envC9v : VisEnv := ⟨[bkA, bkB], [], some (buildIndex [bkA, bkB] []), simHead⟩

/-- Witness for C9 at concrete environments whose caches hold exactly what
recomputation produces. -/
theorem C9_witness :
    get_recommendations envC9r 1 1 = recsAfterCache envC9r 1 1
    ∧ find_similar_books_enhanced envC9v (.path (some [1])) 2
        = find_similar_books_enhanced
            { books := envC9v.books, userBooks := envC9v.userBooks,
              featureCache := none, sim := envC9v.sim } (.path (some [1])) 2 :=
  ⟨C9_cache_advisory.1 envC9r 1 1 (Or.inr (Or.inr rfl)),
   C9_cache_advisory.2 envC9v (.path (some [1])) 2 (Or.inr rfl)⟩

/-- Featureless sample catalog items for the cluster-recommendation claims. -/
def bkR1 : Book := ⟨1, "R1", "a1", "g1", "c1", none⟩

def bkR2 : Book := ⟨2, "R2", "a2", "g1", "c1", none⟩

def bkR3 : Book := ⟨3, "R3", "a3", "g2", "c2", none⟩

/-- C7: a recommendation computed from a trained artifact never contains
the queried item itself: every returned book's id differs from the query
id, and corresponds to a trained entry whose predicted cluster equals the
query item's cluster. -/
theorem C7_no_self_recommendation (env : RecEnv) (m : ModelData) (books : List Book)
    (book_id top_n : Nat)
    (hc : env.cacheRec = none)
    (hf : env.modelFile = some (some m))
    (ht : train_recommendation_model env.fit books = some m)
    (hmem : book_id ∈ m.book_ids) :
    ∀ b ∈ get_recommendations env book_id top_n,
      b.id ≠ book_id
      ∧ ∃ p ∈ m.book_ids.zip (m.features.map m.predict),
          p.1 = b.id ∧ p.2 = queryCluster m book_id := by
  obtain ⟨hi, hfeat, -, -⟩ := train_some_inv ht
  have hlen : m.book_ids.length = m.features.length := by
    rw [hi, hfeat]
    simp
  intro b hb
  rw [get_recommendations_success env m book_id top_n hc hf hmem hlen] at hb
  have hbid : b.id ∈ recSelectedIds m book_id top_n := by
    have h1 := List.of_mem_filter hb
    simpa using h1
  simp only [recSelectedIds] at hbid
  have hbid2 : b.id ∈ (m.book_ids.zip (m.features.map m.predict)).filterMap
      (fun p => if p.2 = queryCluster m book_id ∧ p.1 ≠ book_id then some p.1 else none) :=
    List.take_subset _ _ hbid
  simp only [List.mem_filterMap] at hbid2
  obtain ⟨p, hp, hpe⟩ := hbid2
  by_cases hcond : p.2 = queryCluster m book_id ∧ p.1 ≠ book_id
  · rw [if_pos hcond] at hpe
    have hp1 := Option.some.inj hpe
    refine ⟨?_, p, hp, hp1, hcond.1⟩
    rw [← hp1]
    exact hcond.2
  · rw [if_neg hcond] at hpe
    simp at hpe

/-- The artifact trained by `fitZero` over `[bkR1, bkR2]`. -/
def mC7 : ModelData := ⟨2, 42, fun _ => 0, [1, 2], ["c1 g1 a1", "c1 g1 a2"]⟩

def envC7 : RecEnv := ⟨[bkR1, bkR2], some (some mC7), false, fitZero, none⟩

/-- Witness for C7: querying id 1 against the trained two-item artifact
returns `[bkR2]`, whose id differs from 1 and sits in the query's cluster. -/
theorem C7_witness :
    bkR2.id ≠ 1
    ∧ ∃ p ∈ mC7.book_ids.zip (mC7.features.map mC7.predict),
        p.1 = bkR2.id ∧ p.2 = queryCluster mC7 1 :=
  C7_no_self_recommendation envC7 mC7 [bkR1, bkR2] 1 5 rfl rfl rfl (by decide)
    bkR2 (by decide)

/-- The artifact trained by `fitZero` over `[bkR1, bkR2, bkR3]`. -/
def mC2 : ModelData :=
  ⟨3, 42, fun _ => 0, [1, 2, 3], ["c1 g1 a1", "c1 g1 a2", "c2 g2 a3"]⟩

/-- The training catalog of `mC2` re-enumerated in a different order. -/
def envC2 : RecEnv := ⟨[bkR2, bkR1, bkR3], some (some mC2), false, fitZero, none⟩

/-- C2 counterexample: against a trained artifact with `book_ids = [1, 2, 3]`
(all in one cluster) and a catalog that now enumerates the same items as
`[bkR2, bkR1, bkR3]`, querying id 3 selects ids `[1, 2]` in `book_ids`
order but returns the items as `[bkR2, bkR1]` — id order `[2, 1]`, the
catalog's enumeration order, not the `book_ids` (training) order. -/
theorem C2_counterexample :
    train_recommendation_model fitZero [bkR1, bkR2, bkR3] = some mC2
    ∧ recSelectedIds mC2 3 5 = [1, 2]
    ∧ get_recommendations envC2 3 5 = [bkR2, bkR1]
    ∧ (get_recommendations envC2 3 5).map (fun b => b.id) = [2, 1]
    ∧ ([2, 1] : List Nat) ≠ [1, 2] :=
  ⟨rfl, by decide, by decide, by decide, by decide⟩

/-- C2 (amended): the *selection* of ids (cluster mask and `top_n`
truncation) follows `book_ids` (training) order, but the returned items
follow the current catalog's enumeration order; when the catalog still
enumerates the trained items in training order (distinct ids), the returned
sequence's ids are exactly the selected ids, in `book_ids` order. -/
theorem C2_selection_in_training_order (env : RecEnv) (m : ModelData)
    (book_id top_n : Nat)
    (hc : env.cacheRec = none)
    (hf : env.modelFile = some (some m))
    (ht : train_recommendation_model env.fit env.catalog = some m)
    (hnd : (env.catalog.map (fun b => b.id)).Nodup)
    (hmem : book_id ∈ m.book_ids) :
    (get_recommendations env book_id top_n).map (fun b => b.id)
      = recSelectedIds m book_id top_n := by
  obtain ⟨hi, hfeat, -, -⟩ := train_some_inv ht
  have hlen : m.book_ids.length = m.features.length := by
    rw [hi, hfeat]
    simp
  rw [get_recommendations_success env m book_id top_n hc hf hmem hlen]
  have hsub : (recSelectedIds m book_id top_n).Sublist (env.catalog.map (fun b => b.id)) := by
    rw [← hi]
    exact recSelectedIds_sublist m book_id top_n
  exact map_id_filter_mem_sublist env.catalog (recSelectedIds m book_id top_n) hsub hnd

/-- The training catalog of `mC2` in its original (training) enumeration. -/
def envC2w : RecEnv := ⟨[bkR1, bkR2, bkR3], some (some mC2), false, fitZero, none⟩

/-- Witness for the amended C2: with the catalog unchanged since training,
the returned ids equal the selected ids in training order. -/
theorem C2_witness :
    (get_recommendations envC2w 3 5).map (fun b => b.id) = recSelectedIds mC2 3 5 :=
  C2_selection_in_training_order envC2w mC2 3 5 rfl rfl rfl (by decide) (by decide)

/-- The catalog/artifact state before the prior call: two items, a model
file that fails to unpickle, empty cache. -/
def envC9prior : RecEnv := ⟨[bkR1, bkR2], some none, false, fitZero, none⟩

/-- The same catalog/artifact state after a prior `get_recommendations(1, 1)`
call populated the cache under key `book_recommendations_1` — a key that
does not mention `top_n`. -/
def envC9stale : RecEnv := ⟨[bkR1, bkR2], some none, false, fitZero,
  some (get_recommendations envC9prior 1 1)⟩

/-- C9 counterexample: the cache key `book_recommendations_{book_id}`
(`ai_recommendation.py` line 44) omits `top_n`, so the cache is not purely
advisory.  Against an unchanged catalog/artifact state, a prior
`get_recommendations(1, 1)` call caches `[bkR1]`; a later
`get_recommendations(1, 2)` call serves that entry verbatim and returns
`[bkR1]`, while the cache-disabled (always-miss) run returns
`[bkR1, bkR2]` — a different result sequence, not just different latency. -/
theorem C9_counterexample :
    get_recommendations envC9prior 1 1 = [bkR1]
    ∧ get_recommendations envC9stale 1 2 = [bkR1]
    ∧ recsAfterCache envC9stale 1 2 = [bkR1, bkR2]
    ∧ get_recommendations envC9stale 1 2 ≠ recsAfterCache envC9stale 1 2 :=
  ⟨by decide, by decide, by decide, by decide⟩
